import Mathlib

/-!
Verification development for the chunk renderer (`chunk.py`).

The Python source renders a 16 x 16 x 128 voxel chunk to an isometric image,
with a content-hash render cache on disk.  This file gives a shallow
embedding of the parts of that program the claims are about:

* `transparent_blocks` / `isTransparent`   — the module-level transparency set;
* `getBlock?` / `occlusionSkip`            — the per-voxel occlusion test of
  `ChunkRenderer.chunk_render`, with `none` modelling a numpy `IndexError`
  on an out-of-bounds access;
* `expandColumn` / `caveBlocks`            — the cave-mode skylight expansion
  and masked overwrite (`blocks[skylight_expanded != 0] = 21`);
* `Heap` / `cavePrepare`                   — array aliasing of the cave-mode
  copy-then-write sequence (`blocks = blocks.copy()`);
* `imgyInit` / `runColumn`                 — the inner z-loop of the renderer
  with its unconditional `imgy -= 12` in the `finally` block;
* `hash_blockarray` / `render_and_save`    — the cache-file lifecycle of
  `ChunkRenderer.render_and_save`, over a file-listing model of the
  destination directory;
* `depthColorState`                        — `generate_depthcolors`.

Definitions come first, then the lemmas and the claim theorems.
-/

/-- A voxel grid, indexed `blocks[x, y, z]`.  The Python object is a numpy
`uint8` array of shape `(16, 16, 128)`; we model the backing store as a total
function and route every array access through `getBlock?`, which enforces the
bounds exactly as numpy does (an out-of-range non-negative index raises
`IndexError`, modelled as `none`). -/
abbrev Grid := Nat → Nat → Nat → Nat

/-- `transparent_blocks` from `chunk.py`: block ids that can be seen through,
for occlusion calculations. -/
def transparent_blocks : List Nat :=
  [0, 8, 9, 18, 20, 37, 38, 39, 40, 50, 51, 52, 53, 59, 63, 64, 65, 66, 67,
   68, 69, 70, 71, 72, 74, 75, 76, 77, 79, 83, 85]

/-- `b in transparent_blocks` in the Python source. -/
def isTransparent (b : Nat) : Bool :=
  transparent_blocks.contains b

/-- A bounds-checked array read: `blocks[x, y, z]` on the numpy array of
shape `(16, 16, 128)`.  All indices appearing in the source are
non-negative, so the only failure mode is an index at or past the end of an
axis, which numpy turns into an `IndexError` (here `none`). -/
def getBlock? (g : Grid) (x y z : Nat) : Option Nat :=
  if x < 16 ∧ y < 16 ∧ z < 128 then some (g x y z) else none

/-- `blocks[x,y,z] not in transparent_blocks`, as a bounds-checked read. -/
def notTransp? (g : Grid) (x y z : Nat) : Option Bool :=
  (getBlock? g x y z).map (fun b => !(isTransparent b))

/-- Short-circuit `and` over fallible Boolean tests, mirroring Python's
`and`: the second operand is only evaluated when the first is truthy. -/
def sAnd (a : Option Bool) (k : Unit → Option Bool) : Option Bool :=
  match a with
  | none => none
  | some false => some false
  | some true => k ()

/-- The occlusion test of `chunk_render` for the voxel at `(x, y, z)`:
the `if cave and ... / elif ... / elif ... / elif ...` chain deciding whether
to `continue` (skip the voxel).  `some true` means the voxel is skipped,
`some false` means it is drawn (given it has a sprite), and `none` means the
test itself performed an out-of-bounds array read (`IndexError`). -/
def occlusionSkip (cave : Bool) (blocks : Grid) (x y z : Nat) : Option Bool :=
  if cave && (x == 0) && (y != 15) && (z != 127) then
    -- on the x face: skip unless a transparent block sits at y+1 or z+1
    sAnd (notTransp? blocks x (y + 1) z) (fun _ => notTransp? blocks x y (z + 1))
  else if cave && (y == 15) && (x != 0) && (z != 127) then
    -- on the facing y face: skip unless a transparent block sits at x-1 or z+1
    sAnd (notTransp? blocks (x - 1) y z) (fun _ => notTransp? blocks x y (z + 1))
  else if cave && (y == 15) && (x == 0) then
    -- on the facing edge: skip unless what's above is transparent
    notTransp? blocks x y (z + 1)
  else if (x != 0) && (y != 15) && (z != 127) then
    -- normal block or not cave mode: skip when all three facing
    -- neighbours are opaque and the voxel is not on a shown face
    sAnd (notTransp? blocks (x - 1) y z) (fun _ =>
      sAnd (notTransp? blocks x (y + 1) z) (fun _ =>
        notTransp? blocks x y (z + 1)))
  else
    some false

/-- An all-stone grid (block id 1 everywhere), a concrete chunk content. -/
def stoneGrid : Grid := fun _ _ _ => 1

/-- `imgx = xoff + x*12 + y*12`, computed once per (x, y) column. -/
def imgxInit (xoff x y : Int) : Int :=
  xoff + x * 12 + y * 12

/-- `imgy = yoff - x*6 + y*6 + 128*12 + 16*12//2`, the value of the loop
variable `imgy` before the z loop starts. -/
def imgyInit (yoff x y : Int) : Int :=
  yoff - x * 6 + y * 6 + 128 * 12 + 16 * 12 / 2

/-- The inner `for z in xrange(128)` loop of `chunk_render`, abstracted over
what the body pastes: `visit z imgy` stands for whatever drawing happens at
height `z` with the current value of the loop variable `imgy` (possibly
nothing, when the voxel is skipped).  The `finally:` block decrements `imgy`
by 12 after every iteration, no matter how the body exits, which is the
`imgy - 12` threaded to the recursive call. -/
def runColumn {β : Type} (visit : Nat → Int → List β) :
    Nat → Nat → Int → List β
  | 0, _, _ => []
  | n + 1, z, imgy => visit z imgy ++ runColumn visit n (z + 1) (imgy - 12)

/-- The claim's formula for the paste ordinate:
`imgy = yoff - x*6 + y*6 + 128*12 + 16*12/2 - z*12`. -/
def projImgy (yoff x y : Int) (z : Nat) : Int :=
  yoff - x * 6 + y * 6 + 128 * 12 + 16 * 12 / 2 - (z : Int) * 12

/-- The same column loop, but with each visit's ordinate computed directly
from the claim's closed formula `projImgy` instead of the running
decrement.  Defined from the spec's words, to be compared with
`runColumn`. -/
def runColumnSpec {β : Type} (visit : Nat → Int → List β) (yoff x y : Int) :
    Nat → Nat → List β
  | 0, _ => []
  | n + 1, z => visit z (projImgy yoff x y z) ++ runColumnSpec visit yoff x y n (z + 1)

/-- A packed skylight column, one byte per pair of z-cells.  The numpy
`SkyLight` array has shape `(16, 16, 64)`; we model it as its columns. -/
abbrev SkylightCols := Nat → Nat → List Nat

/-- The strided expansion of a packed skylight column:
`skylight_expanded[:,:,::2] = skylight & 0x0F` places the low nibble of
packed byte `i` at even cell `2*i`, and
`skylight_expanded[:,:,1::2] = skylight >> 4` places its high nibble at odd
cell `2*i + 1`. -/
def expandColumn : List Nat → List Nat
  | [] => []
  | b :: rest => b % 16 :: b / 16 :: expandColumn rest

/-- The cave-mode grid rewrite
`blocks = blocks.copy(); blocks[skylight_expanded != 0] = 21`: every cell
whose expanded skylight is nonzero becomes block id 21, every other cell
keeps its value. -/
def caveBlocks (blocks : Grid) (sl : SkylightCols) : Grid :=
  fun x y z =>
    if (expandColumn (sl x y)).getD z 0 ≠ 0 then 21 else blocks x y z

/-- The claim's expansion rule, from the spec's words: cell `z` reads the
low 4 bits of packed byte `z/2` when `z` is even and the high 4 bits when
`z` is odd. -/
def specNibble (col : List Nat) (z : Nat) : Nat :=
  if z % 2 = 0 then col.getD (z / 2) 0 % 16 else col.getD (z / 2) 0 / 16

/-- A store of numpy arrays, one slot per allocated array object.  This
models the aliasing structure of `chunk_render`: `self._blocks` is one
array object, `blocks.copy()` allocates a fresh one, and the masked
assignment `blocks[...] = 21` writes in place into whichever object
`blocks` names. -/
structure Heap where
  arrays : List Grid

/-- Reading the array object in slot `i`. -/
def Heap.getArr (h : Heap) (i : Nat) : Grid :=
  h.arrays.getD i (fun _ _ _ => 0)

/-- Allocating a fresh array object (as `numpy.ndarray.copy` does),
returning the new heap and the new slot. -/
def Heap.alloc (h : Heap) (g : Grid) : Heap × Nat :=
  (⟨h.arrays ++ [g]⟩, h.arrays.length)

/-- Writing array contents in place into slot `i` (a masked assignment). -/
def Heap.writeArr (h : Heap) (i : Nat) (g : Grid) : Heap :=
  ⟨h.arrays.set i g⟩

/-- The cave-mode grid preparation of `chunk_render`:
`blocks = blocks.copy()` followed by the in-place masked write
`blocks[skylight_expanded != 0] = 21` on the copy.  Returns the heap after
both steps and the slot the local name `blocks` now refers to. -/
def cavePrepare (h : Heap) (blocksId : Nat) (sl : SkylightCols) : Heap × Nat :=
  let g := h.getArr blocksId
  let alloc := h.alloc g
  let h2 := alloc.1.writeArr alloc.2 (caveBlocks g sl)
  (h2, alloc.2)

/-- One step of the accumulator `(r, g, b)` in `generate_depthcolors`:
after appending entry `z`, the loop mutates one channel according to the
32-deep band `z` lies in. -/
def depthColorStep (z : Nat) (c : Int × Int × Int) : Int × Int × Int :=
  if z < 32 then (c.1, c.2.1 + 7, c.2.2)
  else if z < 64 then (c.1 - 7, c.2.1, c.2.2)
  else if z < 96 then (c.1, c.2.1, c.2.2 + 7)
  else (c.1, c.2.1 - 7, c.2.2)

/-- The accumulator of `generate_depthcolors` before iteration `z`; this is
exactly the RGB colour of `depth_colors[z]`, starting from (255, 0, 0). -/
def depthColorState : Nat → Int × Int × Int
  | 0 => (255, 0, 0)
  | z + 1 => depthColorStep z (depthColorState z)

/-- The destination directory of `render_and_save`, modelled as the list of
file names present (in `os.listdir` order) together with which of them
currently decode as valid images (`Image.open` followed by `load`
succeeding). -/
structure CacheState where
  files : List String
  valid : String → Bool

/-- `s.startswith(p)` on Python strings. -/
def strStartsWith (s p : String) : Bool :=
  p.data.isPrefixOf s.data

/-- `s.endswith(p)` on Python strings. -/
def strEndsWith (s p : String) : Bool :=
  p.data.reverse.isPrefixOf s.data.reverse

/-- `s[:n]` on a Python string. -/
def strTake (s : String) (n : Nat) : String :=
  ⟨s.data.take n⟩

/-- The literal pieces of the cache file name template
`"img.{0}.{1}.{2}.png"`. -/
def imgTag : String := "img."

/-- The dot separating the template fields. -/
def dotStr : String := "."

/-- The `.png` file extension. -/
def pngExt : String := ".png"

/-- `"img.{0}.{1}.{2}.png".format(blockid, cave-flag, hash)` — the expected
cache file name. -/
def destFilename (blockid mode hash : String) : String :=
  imgTag ++ blockid ++ dotStr ++ mode ++ dotStr ++ hash ++ pngExt

/-- The test of the stale-image cleanup loop:
`oldimg.startswith("img.{0}.{1}.".format(blockid, cave-flag)) and
oldimg.endswith(".png")`. -/
def isStaleMatch (blockid mode : String) (name : String) : Bool :=
  strStartsWith name (imgTag ++ blockid ++ dotStr ++ mode ++ dotStr) &&
    strEndsWith name pngExt

/-- `os.path.exists` over the directory listing. -/
def fileExists : List String → String → Bool
  | [], _ => false
  | f :: fs, n => if f = n then true else fileExists fs n

/-- The cleanup loop of `render_and_save`: walk the listing, `os.unlink`
the first entry matching the stale pattern, then `break`. -/
def removeFirstMatching (p : String → Bool) : List String → List String
  | [] => []
  | f :: fs => if p f then fs else f :: removeFirstMatching p fs

/-- How many files of the listing match a pattern. -/
def countMatching (p : String → Bool) : List String → Nat
  | [] => 0
  | f :: fs => (if p f then 1 else 0) + countMatching p fs

/-- `img.save(dest_path)`: afterwards the file is present and decodes as a
valid image (a completed `save` produces a readable PNG). -/
def saveFile (s : CacheState) (name : String) : CacheState :=
  { files := if fileExists s.files name then s.files else s.files ++ [name]
    valid := fun f => if f = name then true else s.valid f }

/-- The outcome of one `ChunkRenderer.render_and_save` call: the directory
afterwards, the returned path, and whether `chunk_render` / `img.save`
ran. -/
structure RSResult where
  state : CacheState
  path : String
  rendered : Bool
  wrote : Bool

/-- `ChunkRenderer.render_and_save`, over the directory model: if the
expected cache file exists and decodes, return its path untouched; if it
exists but is corrupt, re-render and overwrite it; otherwise remove the
first stale cache file for the same (blockid, mode) pair, render, and save
the new file. -/
def render_and_save (blockid mode hash : String) (s : CacheState) : RSResult :=
  if fileExists s.files (destFilename blockid mode hash) then
    if s.valid (destFilename blockid mode hash) then
      ⟨s, destFilename blockid mode hash, false, false⟩
    else
      ⟨saveFile s (destFilename blockid mode hash),
       destFilename blockid mode hash, true, true⟩
  else
    ⟨saveFile ⟨removeFirstMatching (isStaleMatch blockid mode) s.files, s.valid⟩
       (destFilename blockid mode hash),
     destFilename blockid mode hash, true, true⟩

/-- `self.level['Blocks']` and `self.level['SkyLight']` as raw byte
buffers. -/
structure Level where
  blocksBytes : List Nat
  skylightBytes : List Nat

/-- `_hash_blockarray`: an md5 over the raw `Blocks` buffer followed by the
algorithm-version tag `"1"` (the single byte 49), truncated to the first 6
hex digits.  The digest itself is an arbitrary function of the hashed
bytes, which is all the claims need: md5 reads nothing but its input. -/
def hash_blockarray (digestHex : List Nat → String) (level : Level) : String :=
  strTake (digestHex (level.blocksBytes ++ [49])) 6

/-- Example block id `"0.0"` (from the chunk file name). -/
def exBlockid : String := "0.0"

/-- The mode field `"nocave"`. -/
def exNocave : String := "nocave"

/-- The mode field `"cave"`. -/
def exCave : String := "cave"

/-- Example hash field. -/
def exHashA : String := "aaaaaa"

/-- Second example hash field. -/
def exHashB : String := "bbbbbb"

/-- Third example hash field. -/
def exHashC : String := "cccccc"

example : occlusionSkip false stoneGrid 1 1 1 = some true := by decide
example : occlusionSkip false stoneGrid 0 1 1 = some false := by decide
example : occlusionSkip true stoneGrid 0 15 127 = none := by decide
example : occlusionSkip true stoneGrid 0 15 126 = some true := by decide
example : occlusionSkip true stoneGrid 0 14 127 = some false := by decide
example : occlusionSkip true stoneGrid 3 15 127 = some false := by decide
example : destFilename exBlockid exNocave exHashA = "img.0.0.nocave.aaaaaa.png" := by decide
example : isStaleMatch exBlockid exNocave (destFilename exBlockid exNocave exHashA) = true := by decide
example : isStaleMatch exBlockid exCave (destFilename exBlockid exNocave exHashA) = false := by decide

/-- In non-cave mode the three cave branches are dead and the occlusion test
reduces to the final `elif` of the chain. -/
lemma occlusionSkip_noncave (g : Grid) (x y z : Nat) :
    occlusionSkip false g x y z =
      if (x != 0) && (y != 15) && (z != 127) then
        sAnd (notTransp? g (x - 1) y z) (fun _ =>
          sAnd (notTransp? g x (y + 1) z) (fun _ =>
            notTransp? g x y (z + 1)))
      else some false := by
  simp [occlusionSkip]

/-- Inside the chunk, a neighbour read returns the grid value. -/
lemma notTransp?_inBounds (g : Grid) (x y z : Nat)
    (hx : x < 16) (hy : y < 16) (hz : z < 128) :
    notTransp? g x y z = some (!(isTransparent (g x y z))) := by
  simp [notTransp?, getBlock?, hx, hy, hz]

/-- The running-decrement loop agrees with the closed affine formula at
every height, for any body. -/
lemma runColumn_eq_spec {β : Type} (visit : Nat → Int → List β)
    (yoff x y : Int) :
    ∀ (n z : Nat), runColumn visit n z (projImgy yoff x y z) =
      runColumnSpec visit yoff x y n z := by
  intro n
  induction n with
  | zero => intro z; rfl
  | succ n ih =>
    intro z
    have hstep : projImgy yoff x y z - 12 = projImgy yoff x y (z + 1) := by
      simp only [projImgy]
      push_cast
      ring
    simp only [runColumn, runColumnSpec, hstep, ih (z + 1)]

/-- The strided expansion realises the nibble rule at every cell. -/
lemma expandColumn_getD :
    ∀ (l : List Nat) (z : Nat), z < 2 * l.length →
      (expandColumn l).getD z 0 = specNibble l z := by
  intro l
  induction l with
  | nil => intro z hz; simp at hz
  | cons b rest ih =>
    intro z hz
    match z with
    | 0 => simp [expandColumn, specNibble]
    | 1 => simp [expandColumn, specNibble]
    | (k + 2) =>
      have hk : k < 2 * rest.length := by
        simp [List.length_cons] at hz
        omega
      have heven : (k + 2) % 2 = k % 2 := by omega
      have hdiv : (k + 2) / 2 = k / 2 + 1 := by omega
      simpa [expandColumn, specNibble, heven, hdiv] using ih k hk

lemma isPrefixOf_append_self (l m : List Char) : l.isPrefixOf (l ++ m) = true := by
  induction l with
  | nil => simp
  | cons a as ih => simp [List.cons_append, List.isPrefixOf_cons₂, ih]

lemma strStartsWith_append (p r : String) : strStartsWith (p ++ r) p = true := by
  simp [strStartsWith, isPrefixOf_append_self]

lemma strEndsWith_append (l p : String) : strEndsWith (l ++ p) p = true := by
  simp [strEndsWith, isPrefixOf_append_self]

/-- The expected cache file name itself matches the stale-cleanup pattern
for its own (blockid, mode) pair. -/
lemma isStaleMatch_destFilename (blockid mode hash : String) :
    isStaleMatch blockid mode (destFilename blockid mode hash) = true := by
  have h1 : destFilename blockid mode hash =
      (imgTag ++ blockid ++ dotStr ++ mode ++ dotStr) ++ (hash ++ pngExt) := by
    simp [destFilename, String.append_assoc]
  have h2 : destFilename blockid mode hash =
      (imgTag ++ blockid ++ dotStr ++ mode ++ dotStr ++ hash) ++ pngExt := rfl
  rw [isStaleMatch, Bool.and_eq_true]
  constructor
  · rw [h1]
    exact strStartsWith_append _ _
  · rw [h2]
    exact strEndsWith_append _ _

lemma fileExists_append_self (l : List String) (n : String) :
    fileExists (l ++ [n]) n = true := by
  induction l with
  | nil => simp [fileExists]
  | cons f fs ih => by_cases h : f = n <;> simp [fileExists, h, ih]

lemma fileExists_saveFile (s : CacheState) (n : String) :
    fileExists (saveFile s n).files n = true := by
  unfold saveFile
  by_cases h : fileExists s.files n = true
  · simp only [h, if_true]
  · simp [h, fileExists_append_self]

lemma valid_saveFile (s : CacheState) (n : String) :
    (saveFile s n).valid n = true := by
  simp [saveFile]

/-- `render_and_save` always returns the expected cache path. -/
lemma render_and_save_path (blockid mode hash : String) (s : CacheState) :
    (render_and_save blockid mode hash s).path = destFilename blockid mode hash := by
  unfold render_and_save
  split
  · split <;> rfl
  · rfl

/-- After any `render_and_save` call the expected cache file is on disk and
decodes as a valid image. -/
lemma render_and_save_caches (blockid mode hash : String) (s : CacheState) :
    fileExists (render_and_save blockid mode hash s).state.files
        (destFilename blockid mode hash) = true ∧
    (render_and_save blockid mode hash s).state.valid
        (destFilename blockid mode hash) = true := by
  unfold render_and_save
  split
  case isTrue he =>
    split
    case isTrue hv => exact ⟨he, hv⟩
    case isFalse hv => exact ⟨fileExists_saveFile _ _, valid_saveFile _ _⟩
  case isFalse he => exact ⟨fileExists_saveFile _ _, valid_saveFile _ _⟩

/-- A call that finds the expected file present and decodable is a pure
cache hit: nothing is rendered, nothing is written, the state is
untouched. -/
lemma render_and_save_hit (blockid mode hash : String) (s : CacheState)
    (he : fileExists s.files (destFilename blockid mode hash) = true)
    (hv : s.valid (destFilename blockid mode hash) = true) :
    render_and_save blockid mode hash s =
      ⟨s, destFilename blockid mode hash, false, false⟩ := by
  simp [render_and_save, he, hv]

/-- A call that does not find a decodable expected file renders and
writes. -/
lemma render_and_save_renders (blockid mode hash : String) (s : CacheState)
    (hmiss : ¬(fileExists s.files (destFilename blockid mode hash) = true ∧
               s.valid (destFilename blockid mode hash) = true)) :
    (render_and_save blockid mode hash s).rendered = true ∧
    (render_and_save blockid mode hash s).wrote = true := by
  unfold render_and_save
  by_cases he : fileExists s.files (destFilename blockid mode hash) = true
  · have hv : ¬ s.valid (destFilename blockid mode hash) = true :=
      fun hv => hmiss ⟨he, hv⟩
    simp [he, hv]
  · simp [he]

/-- The cleanup loop removes exactly the first matching file (none when no
file matches), so the number of matching files drops by at most one. -/
lemma countMatching_removeFirst (p : String → Bool) :
    ∀ l : List String,
      countMatching p (removeFirstMatching p l) = countMatching p l - 1 := by
  intro l
  induction l with
  | nil => rfl
  | cons f fs ih =>
    by_cases h : p f = true
    · simp [removeFirstMatching, countMatching, h]
    · simp [removeFirstMatching, countMatching, h, ih]

lemma countMatching_append (p : String → Bool) (l m : List String) :
    countMatching p (l ++ m) = countMatching p l + countMatching p m := by
  induction l with
  | nil => simp [countMatching]
  | cons f fs ih =>
    simp [countMatching, ih]
    omega

lemma fileExists_removeFirst_false (p : String → Bool) (n : String) :
    ∀ l : List String, fileExists l n = false →
      fileExists (removeFirstMatching p l) n = false := by
  intro l
  induction l with
  | nil => intro _; rfl
  | cons f fs ih =>
    intro h
    by_cases hf : f = n
    · simp [fileExists, hf] at h
    · have hfs : fileExists fs n = false := by simpa [fileExists, hf] using h
      by_cases hp : p f = true
      · simpa [removeFirstMatching, hp] using hfs
      · simpa [removeFirstMatching, hp, fileExists, hf] using ih hfs

/-- Claim C1 fails on the code: at the voxel (0, 15, 127) in cave mode the
third cave branch (`y == 15 and x == 0`, which unlike its two sibling
branches has no `z != 127` guard) evaluates `blocks[x, y, z+1]` with
`z + 1 = 128`, an index outside the 16x16x128 grid, so the occlusion test
raises `IndexError` (modelled as `none`) instead of deciding the voxel. -/
theorem C1_cave_corner_reads_out_of_bounds :
    occlusionSkip true stoneGrid 0 15 127 = none ∧
    getBlock? stoneGrid 0 15 (127 + 1) = none := by decide

/-- Claim C2: in normal (non-cave) mode a voxel with a sprite is drawn iff
NOT(x ≠ 0 and y ≠ 15 and z ≠ 127 and the three cells (x-1,y,z), (x,y+1,z),
(x,y,z+1) all hold non-transparent types); consequently on a grid filled
with a single opaque type exactly the voxels with x = 0 or y = 15 or
z = 127 are drawn. -/
theorem C2_normal_mode_visibility (g : Grid) (x y z : Nat)
    (hx : x < 16) (hy : y < 16) (hz : z < 128) :
    (occlusionSkip false g x y z = some false ↔
      ¬(x ≠ 0 ∧ y ≠ 15 ∧ z ≠ 127 ∧
        isTransparent (g (x - 1) y z) = false ∧
        isTransparent (g x (y + 1) z) = false ∧
        isTransparent (g x y (z + 1)) = false)) ∧
    (∀ t : Nat, isTransparent t = false →
      (occlusionSkip false (fun _ _ _ => t) x y z = some false ↔
        (x = 0 ∨ y = 15 ∨ z = 127))) := by
  have key : ∀ g : Grid, occlusionSkip false g x y z = some false ↔
      ¬(x ≠ 0 ∧ y ≠ 15 ∧ z ≠ 127 ∧
        isTransparent (g (x - 1) y z) = false ∧
        isTransparent (g x (y + 1) z) = false ∧
        isTransparent (g x y (z + 1)) = false) := by
    intro g
    rw [occlusionSkip_noncave]
    by_cases h0 : x = 0
    · simp [h0]
    by_cases h15 : y = 15
    · simp [h15]
    by_cases h127 : z = 127
    · simp [h127]
    have hcond : ((x != 0) && (y != 15) && (z != 127)) = true := by
      simp [h0, h15, h127]
    rw [if_pos hcond]
    rw [notTransp?_inBounds g (x - 1) y z (by omega) hy hz,
        notTransp?_inBounds g x (y + 1) z hx (by omega) hz,
        notTransp?_inBounds g x y (z + 1) hx hy (by omega)]
    cases h1 : isTransparent (g (x - 1) y z) <;>
      cases h2 : isTransparent (g x (y + 1) z) <;>
        cases h3 : isTransparent (g x y (z + 1)) <;>
          simp [sAnd, h0, h15, h127]
  refine ⟨key g, fun t ht => ?_⟩
  rw [key (fun _ _ _ => t)]
  simp [ht]
  tauto

/-- Witness for `C2_normal_mode_visibility` at the interior voxel (1,1,1)
and the boundary voxel check with the opaque type 1 (stone). -/
theorem C2_normal_mode_visibility_witness :
    (1 < 16 ∧ 1 < 16 ∧ 1 < 128) ∧
    ((occlusionSkip false stoneGrid 1 1 1 = some false ↔
      ¬(1 ≠ 0 ∧ 1 ≠ 15 ∧ 1 ≠ 127 ∧
        isTransparent (stoneGrid (1 - 1) 1 1) = false ∧
        isTransparent (stoneGrid 1 (1 + 1) 1) = false ∧
        isTransparent (stoneGrid 1 1 (1 + 1)) = false)) ∧
    (∀ t : Nat, isTransparent t = false →
      (occlusionSkip false (fun _ _ _ => t) 1 1 1 = some false ↔
        (1 = 0 ∨ 1 = 15 ∨ 1 = 127)))) :=
  ⟨⟨by decide, by decide, by decide⟩,
   C2_normal_mode_visibility stoneGrid 1 1 1 (by decide) (by decide) (by decide)⟩

/-- Claim C3: for every drawn voxel the paste position is the affine
function `imgx = xoff + x*12 + y*12`,
`imgy = yoff - x*6 + y*6 + 128*12 + 16*12/2 - z*12` — the whole 128-step
column loop, whatever its body draws or skips, visits height `z` at exactly
`projImgy yoff x y z` — and for fixed (x, y) the ordinates at `z` and
`z + 1` differ by exactly 12 pixels. -/
theorem C3_projector_affine {β : Type} (visit : Nat → Int → List β)
    (xoff yoff x y : Int) (z : Nat) :
    imgxInit xoff x y = xoff + x * 12 + y * 12 ∧
    runColumn visit 128 0 (imgyInit yoff x y) =
      runColumnSpec visit yoff x y 128 0 ∧
    projImgy yoff x y (z + 1) = projImgy yoff x y z - 12 := by
  refine ⟨rfl, ?_, ?_⟩
  · have h0 : imgyInit yoff x y = projImgy yoff x y 0 := by
      simp [imgyInit, projImgy]
    rw [h0, runColumn_eq_spec]
  · simp only [projImgy]
    push_cast
    ring

/-- Claim C4: in cave mode, cell (x,y,z) is overwritten with the reserved
hidden identifier 21 exactly when the expanded skylight value — the low
nibble of packed byte z/2 for even z, the high nibble for odd z — is
nonzero, and keeps its original voxel type when that value is zero. -/
theorem C4_cave_light_mask (blocks : Grid) (sl : SkylightCols) (x y z : Nat)
    (hlen : (sl x y).length = 64) (hz : z < 128) :
    (specNibble (sl x y) z ≠ 0 → caveBlocks blocks sl x y z = 21) ∧
    (specNibble (sl x y) z = 0 → caveBlocks blocks sl x y z = blocks x y z) := by
  have hb : z < 2 * (sl x y).length := by omega
  have hrw : (expandColumn (sl x y)).getD z 0 = specNibble (sl x y) z :=
    expandColumn_getD (sl x y) z hb
  constructor
  · intro hne
    simp only [caveBlocks, hrw]
    simp [hne]
  · intro he
    simp only [caveBlocks, hrw]
    simp [he]

/-- Witness for `C4_cave_light_mask`: a skylight buffer of packed bytes
`0x10` (low nibble 0, high nibble 1) over stone; at z = 1 the high nibble
is 1, so the cell is hidden. -/
theorem C4_cave_light_mask_witness :
    ((List.replicate 64 16 : List Nat).length = 64 ∧ 1 < 128) ∧
    (specNibble (List.replicate 64 16) 1 ≠ 0 →
      caveBlocks stoneGrid (fun _ _ => List.replicate 64 16) 0 0 1 = 21) ∧
    (specNibble (List.replicate 64 16) 1 = 0 →
      caveBlocks stoneGrid (fun _ _ => List.replicate 64 16) 0 0 1 =
        stoneGrid 0 0 1) :=
  ⟨⟨by decide, by decide⟩,
   C4_cave_light_mask stoneGrid (fun _ _ => List.replicate 64 16) 0 0 1
     (by decide) (by decide)⟩

/-- Claim C5 as stated is false: with two stale cache files for the same
(blockid, mode) pair on disk, the cleanup loop deletes only the first and
then `break`s, so after the call two cache entries for the pair remain
rather than the claimed at most one. -/
theorem C5_counterexample :
    countMatching (isStaleMatch exBlockid exNocave)
      (render_and_save exBlockid exNocave exHashC
        ⟨[destFilename exBlockid exNocave exHashA,
          destFilename exBlockid exNocave exHashB],
         fun _ => true⟩).state.files = 2 ∧
    (render_and_save exBlockid exNocave exHashC
        ⟨[destFilename exBlockid exNocave exHashA,
          destFilename exBlockid exNocave exHashB],
         fun _ => true⟩).state.files =
      [destFilename exBlockid exNocave exHashB,
       destFilename exBlockid exNocave exHashC] := by
  decide

/-- Claim C5 amended: on a cache miss `render_and_save` deletes only the
first stale cache file for the (blockid, mode) pair (it `break`s after one
`unlink`); at most one matching file is ever removed, and when at most one
entry for the pair existed before the call, at most one remains after. -/
theorem C5_at_most_one_entry_preserved (blockid mode hash : String)
    (s : CacheState)
    (hcount : countMatching (isStaleMatch blockid mode) s.files ≤ 1) :
    countMatching (isStaleMatch blockid mode)
      (render_and_save blockid mode hash s).state.files ≤ 1 ∧
    countMatching (isStaleMatch blockid mode) s.files ≤
      countMatching (isStaleMatch blockid mode)
        (render_and_save blockid mode hash s).state.files + 1 := by
  unfold render_and_save
  by_cases he : fileExists s.files (destFilename blockid mode hash) = true
  · by_cases hv : s.valid (destFilename blockid mode hash) = true
    · simp only [he, hv, if_true]
      exact ⟨hcount, by omega⟩
    · simp only [he, hv, if_true, if_false, Bool.false_eq_true]
      have hsame : (saveFile s (destFilename blockid mode hash)).files = s.files := by
        simp [saveFile, he]
      rw [hsame]
      exact ⟨hcount, by omega⟩
  · simp only [he, Bool.false_eq_true, if_false]
    have h1 : fileExists
        (removeFirstMatching (isStaleMatch blockid mode) s.files)
        (destFilename blockid mode hash) = false :=
      fileExists_removeFirst_false _ _ s.files (by simpa using he)
    have h2 : (saveFile
          ⟨removeFirstMatching (isStaleMatch blockid mode) s.files, s.valid⟩
          (destFilename blockid mode hash)).files =
        removeFirstMatching (isStaleMatch blockid mode) s.files ++
          [destFilename blockid mode hash] := by
      simp [saveFile, h1]
    rw [h2, countMatching_append, countMatching_removeFirst]
    have h3 : countMatching (isStaleMatch blockid mode)
        [destFilename blockid mode hash] = 1 := by
      simp [countMatching, isStaleMatch_destFilename]
    rw [h3]
    omega

/-- Witness for `C5_at_most_one_entry_preserved`: a directory holding one
stale entry for the pair. -/
theorem C5_at_most_one_entry_preserved_witness :
    (countMatching (isStaleMatch exBlockid exNocave)
        (CacheState.mk [destFilename exBlockid exNocave exHashA]
          (fun _ => true)).files ≤ 1) ∧
    (countMatching (isStaleMatch exBlockid exNocave)
        (render_and_save exBlockid exNocave exHashC
          (CacheState.mk [destFilename exBlockid exNocave exHashA]
            (fun _ => true))).state.files ≤ 1 ∧
      countMatching (isStaleMatch exBlockid exNocave)
          (CacheState.mk [destFilename exBlockid exNocave exHashA]
            (fun _ => true)).files ≤
        countMatching (isStaleMatch exBlockid exNocave)
            (render_and_save exBlockid exNocave exHashC
              (CacheState.mk [destFilename exBlockid exNocave exHashA]
                (fun _ => true))).state.files + 1) :=
  ⟨by decide,
   C5_at_most_one_entry_preserved exBlockid exNocave exHashC
     (CacheState.mk [destFilename exBlockid exNocave exHashA] (fun _ => true))
     (by decide)⟩

/-- Claim C6: starting without a decodable expected cache file, the first
`render_and_save` call renders and writes, and a second call with
unchanged data finds the file present and decodable: it performs no render
and no write, returns the same path, and leaves the directory exactly as
the first call left it. -/
theorem C6_second_call_pure_cache_hit (blockid mode hash : String)
    (s : CacheState)
    (hmiss : ¬(fileExists s.files (destFilename blockid mode hash) = true ∧
               s.valid (destFilename blockid mode hash) = true)) :
    (render_and_save blockid mode hash s).rendered = true ∧
    (render_and_save blockid mode hash s).wrote = true ∧
    (render_and_save blockid mode hash
        (render_and_save blockid mode hash s).state).rendered = false ∧
    (render_and_save blockid mode hash
        (render_and_save blockid mode hash s).state).wrote = false ∧
    (render_and_save blockid mode hash
        (render_and_save blockid mode hash s).state).path =
      (render_and_save blockid mode hash s).path ∧
    (render_and_save blockid mode hash
        (render_and_save blockid mode hash s).state).state =
      (render_and_save blockid mode hash s).state := by
  obtain ⟨hr, hw⟩ := render_and_save_renders blockid mode hash s hmiss
  obtain ⟨he2, hv2⟩ := render_and_save_caches blockid mode hash s
  have hhit := render_and_save_hit blockid mode hash
    (render_and_save blockid mode hash s).state he2 hv2
  refine ⟨hr, hw, ?_, ?_, ?_, ?_⟩ <;> rw [hhit]
  rw [render_and_save_path]

/-- Witness for `C6_second_call_pure_cache_hit`: an empty destination
directory. -/
theorem C6_second_call_pure_cache_hit_witness :
    (¬(fileExists (CacheState.mk [] (fun _ => false)).files
          (destFilename exBlockid exNocave exHashA) = true ∧
       (CacheState.mk [] (fun _ => false)).valid
          (destFilename exBlockid exNocave exHashA) = true)) ∧
    ((render_and_save exBlockid exNocave exHashA
        (CacheState.mk [] (fun _ => false))).rendered = true ∧
     (render_and_save exBlockid exNocave exHashA
        (CacheState.mk [] (fun _ => false))).wrote = true ∧
     (render_and_save exBlockid exNocave exHashA
        (render_and_save exBlockid exNocave exHashA
          (CacheState.mk [] (fun _ => false))).state).rendered = false ∧
     (render_and_save exBlockid exNocave exHashA
        (render_and_save exBlockid exNocave exHashA
          (CacheState.mk [] (fun _ => false))).state).wrote = false ∧
     (render_and_save exBlockid exNocave exHashA
        (render_and_save exBlockid exNocave exHashA
          (CacheState.mk [] (fun _ => false))).state).path =
       (render_and_save exBlockid exNocave exHashA
          (CacheState.mk [] (fun _ => false))).path ∧
     (render_and_save exBlockid exNocave exHashA
        (render_and_save exBlockid exNocave exHashA
          (CacheState.mk [] (fun _ => false))).state).state =
       (render_and_save exBlockid exNocave exHashA
          (CacheState.mk [] (fun _ => false))).state) :=
  ⟨by decide,
   C6_second_call_pure_cache_hit exBlockid exNocave exHashA
     (CacheState.mk [] (fun _ => false)) (by decide)⟩

/-- Claim C7: cave-mode rendering never mutates the original voxel grid.
The masked overwrite is applied in place to a freshly allocated copy, so
after `cavePrepare` the array object the renderer loaded from the chunk
file still holds its original contents, while the local name `blocks` now
refers to a new object holding the masked grid.  (The rest of
`chunk_render` only reads `blocks`.) -/
theorem C7_cave_copy_preserves_original (h : Heap) (blocksId : Nat)
    (sl : SkylightCols) (hid : blocksId < h.arrays.length) :
    ((cavePrepare h blocksId sl).1).getArr blocksId = h.getArr blocksId ∧
    ((cavePrepare h blocksId sl).1).getArr (cavePrepare h blocksId sl).2 =
      caveBlocks (h.getArr blocksId) sl := by
  simp only [cavePrepare, Heap.alloc, Heap.writeArr, Heap.getArr,
    List.getD_eq_getElem?_getD]
  constructor
  · rw [List.getElem?_set_ne (by omega), List.getElem?_append_left hid]
  · rw [List.getElem?_set_self (by simp)]
    rfl

/-- Witness for `C7_cave_copy_preserves_original`: a heap holding a single
all-stone grid in slot 0, under a skylight buffer of packed bytes 0x10. -/
theorem C7_cave_copy_preserves_original_witness :
    (0 < (Heap.mk [stoneGrid]).arrays.length) ∧
    (((cavePrepare (Heap.mk [stoneGrid]) 0 (fun _ _ => List.replicate 64 16)).1).getArr 0 =
        (Heap.mk [stoneGrid]).getArr 0 ∧
      ((cavePrepare (Heap.mk [stoneGrid]) 0 (fun _ _ => List.replicate 64 16)).1).getArr
          (cavePrepare (Heap.mk [stoneGrid]) 0 (fun _ _ => List.replicate 64 16)).2 =
        caveBlocks ((Heap.mk [stoneGrid]).getArr 0) (fun _ _ => List.replicate 64 16)) :=
  ⟨by decide,
   C7_cave_copy_preserves_original (Heap.mk [stoneGrid]) 0
     (fun _ _ => List.replicate 64 16) (by decide)⟩

/-- Claim C8: the hidden marker 21 written by the cave light mask is not in
`transparent_blocks`, while air (0) and the glass-like ids 20 (glass) and
79 (ice) are; consequently, in either mode, an interior voxel all of whose
three facing neighbours hold the marker is occluded — the marker counts as
opaque in the neighbour transparency tests. -/
theorem C8_hidden_marker_is_opaque (g : Grid) (x y z : Nat)
    (h1 : g (x - 1) y z = 21) (h2 : g x (y + 1) z = 21)
    (h3 : g x y (z + 1) = 21)
    (hx0 : x ≠ 0) (hy15 : y ≠ 15) (hz127 : z ≠ 127)
    (hx : x < 16) (hy : y < 16) (hz : z < 128) :
    isTransparent 21 = false ∧
    isTransparent 0 = true ∧
    isTransparent 20 = true ∧
    isTransparent 79 = true ∧
    occlusionSkip false g x y z = some true ∧
    occlusionSkip true g x y z = some true := by
  have hread1 : notTransp? g (x - 1) y z = some true := by
    rw [notTransp?_inBounds g (x - 1) y z (by omega) hy hz, h1]
    decide
  have hread2 : notTransp? g x (y + 1) z = some true := by
    rw [notTransp?_inBounds g x (y + 1) z hx (by omega) hz, h2]
    decide
  have hread3 : notTransp? g x y (z + 1) = some true := by
    rw [notTransp?_inBounds g x y (z + 1) hx hy (by omega), h3]
    decide
  refine ⟨by decide, by decide, by decide, by decide, ?_, ?_⟩ <;>
    simp [occlusionSkip, sAnd, hx0, hy15, hz127, hread1, hread2, hread3]

/-- Witness for `C8_hidden_marker_is_opaque` on a grid holding the marker
everywhere, at the interior voxel (1,1,1). -/
theorem C8_hidden_marker_is_opaque_witness :
    ((fun _ _ _ => 21 : Grid) (1 - 1) 1 1 = 21 ∧
     (fun _ _ _ => 21 : Grid) 1 (1 + 1) 1 = 21 ∧
     (fun _ _ _ => 21 : Grid) 1 1 (1 + 1) = 21 ∧
     (1 : Nat) ≠ 0 ∧ (1 : Nat) ≠ 15 ∧ (1 : Nat) ≠ 127) ∧
    (isTransparent 21 = false ∧
     isTransparent 0 = true ∧
     isTransparent 20 = true ∧
     isTransparent 79 = true ∧
     occlusionSkip false (fun _ _ _ => 21) 1 1 1 = some true ∧
     occlusionSkip true (fun _ _ _ => 21) 1 1 1 = some true) :=
  ⟨⟨rfl, rfl, rfl, by decide, by decide, by decide⟩,
   C8_hidden_marker_is_opaque (fun _ _ _ => 21) 1 1 1 rfl rfl rfl
     (by decide) (by decide) (by decide) (by decide) (by decide) (by decide)⟩

/-- Claim C9: all 128 depth-colour entries generated from (255,0,0) by the
per-band deltas have every channel within [0, 255]. -/
theorem C9_depth_colors_in_range (z : Nat) (hz : z < 128) :
    0 ≤ (depthColorState z).1 ∧ (depthColorState z).1 ≤ 255 ∧
    0 ≤ (depthColorState z).2.1 ∧ (depthColorState z).2.1 ≤ 255 ∧
    0 ≤ (depthColorState z).2.2 ∧ (depthColorState z).2.2 ≤ 255 := by
  have h : ∀ w : Fin 128,
      0 ≤ (depthColorState w.1).1 ∧ (depthColorState w.1).1 ≤ 255 ∧
      0 ≤ (depthColorState w.1).2.1 ∧ (depthColorState w.1).2.1 ≤ 255 ∧
      0 ≤ (depthColorState w.1).2.2 ∧ (depthColorState w.1).2.2 ≤ 255 := by
    decide
  exact h ⟨z, hz⟩

/-- Witness for `C9_depth_colors_in_range` at the last entry z = 127. -/
theorem C9_depth_colors_in_range_witness :
    (127 < 128) ∧
    (0 ≤ (depthColorState 127).1 ∧ (depthColorState 127).1 ≤ 255 ∧
     0 ≤ (depthColorState 127).2.1 ∧ (depthColorState 127).2.1 ≤ 255 ∧
     0 ≤ (depthColorState 127).2.2 ∧ (depthColorState 127).2.2 ≤ 255) :=
  ⟨by decide, C9_depth_colors_in_range 127 (by decide)⟩

/-- Claim C10: the content hash reads only the raw `Blocks` buffer and the
constant version tag, so two levels with byte-identical `Blocks` get the
same 6-character hash prefix whatever their `SkyLight` buffers hold, and a
second `render_and_save` keyed by the second level's hash is a pure cache
hit on the file the first call produced. -/
theorem C10_hash_ignores_skylight (digestHex : List Nat → String)
    (l1 l2 : Level) (hb : l1.blocksBytes = l2.blocksBytes)
    (blockid mode : String) (s : CacheState) :
    hash_blockarray digestHex l1 = hash_blockarray digestHex l2 ∧
    (render_and_save blockid mode (hash_blockarray digestHex l2)
        (render_and_save blockid mode (hash_blockarray digestHex l1) s).state).rendered
      = false ∧
    (render_and_save blockid mode (hash_blockarray digestHex l2)
        (render_and_save blockid mode (hash_blockarray digestHex l1) s).state).wrote
      = false ∧
    (render_and_save blockid mode (hash_blockarray digestHex l2)
        (render_and_save blockid mode (hash_blockarray digestHex l1) s).state).path
      = (render_and_save blockid mode (hash_blockarray digestHex l1) s).path := by
  have hh : hash_blockarray digestHex l1 = hash_blockarray digestHex l2 := by
    unfold hash_blockarray
    rw [hb]
  obtain ⟨he, hv⟩ := render_and_save_caches blockid mode
    (hash_blockarray digestHex l1) s
  have hhit := render_and_save_hit blockid mode (hash_blockarray digestHex l1)
    (render_and_save blockid mode (hash_blockarray digestHex l1) s).state he hv
  refine ⟨hh, ?_, ?_, ?_⟩ <;> rw [← hh, hhit]
  rw [render_and_save_path]

/-- Witness for `C10_hash_ignores_skylight`: two levels sharing the same
`Blocks` bytes but different `SkyLight` bytes, in cave mode on an empty
directory, with a constant digest function. -/
theorem C10_hash_ignores_skylight_witness :
    ((Level.mk [1, 2] [0]).blocksBytes = (Level.mk [1, 2] [15]).blocksBytes) ∧
    (hash_blockarray (fun _ => exHashA) (Level.mk [1, 2] [0]) =
        hash_blockarray (fun _ => exHashA) (Level.mk [1, 2] [15]) ∧
     (render_and_save exBlockid exCave
        (hash_blockarray (fun _ => exHashA) (Level.mk [1, 2] [15]))
        (render_and_save exBlockid exCave
          (hash_blockarray (fun _ => exHashA) (Level.mk [1, 2] [0]))
          (CacheState.mk [] (fun _ => false))).state).rendered = false ∧
     (render_and_save exBlockid exCave
        (hash_blockarray (fun _ => exHashA) (Level.mk [1, 2] [15]))
        (render_and_save exBlockid exCave
          (hash_blockarray (fun _ => exHashA) (Level.mk [1, 2] [0]))
          (CacheState.mk [] (fun _ => false))).state).wrote = false ∧
     (render_and_save exBlockid exCave
        (hash_blockarray (fun _ => exHashA) (Level.mk [1, 2] [15]))
        (render_and_save exBlockid exCave
          (hash_blockarray (fun _ => exHashA) (Level.mk [1, 2] [0]))
          (CacheState.mk [] (fun _ => false))).state).path =
       (render_and_save exBlockid exCave
          (hash_blockarray (fun _ => exHashA) (Level.mk [1, 2] [0]))
          (CacheState.mk [] (fun _ => false))).path) :=
  ⟨rfl,
   C10_hash_ignores_skylight (fun _ => exHashA)
     (Level.mk [1, 2] [0]) (Level.mk [1, 2] [15]) rfl
     exBlockid exCave (CacheState.mk [] (fun _ => false))⟩
